import Mathlib

/-!
Shallow embedding of `src/claude_api.py`: a FastAPI server wrapping a
command-line tool as a subprocess.  The subprocess's behaviour is abstracted
as a `ProcResult` value (what the OS / child process did); everything the
Python code computes from it is embedded as executable Lean functions.
-/

namespace ClaudeApi

/-- JSON values, used for request bodies and response payloads. -/
inductive Json
  | null
  | bool (b : Bool)
  | num (n : Int)
  | str (s : String)
  | arr (xs : List Json)
  | obj (fields : List (String × Json))

/-- Pydantic model `AskRequest` (`prompt: str`). -/
structure AskRequest where
  prompt : String
  deriving Repr, DecidableEq

/-- Pydantic model `Message` (`role: str = "user"`, `content: str`). -/
structure Message where
  role : String := "user"
  content : String
  deriving Repr, DecidableEq

/-- Pydantic model `ChatRequest` (`messages: list[Message]`, `system: str = ""`). -/
structure ChatRequest where
  messages : List Message
  system : String := ""
  deriving Repr, DecidableEq

/-- Outcome of the operating-system side of one subprocess invocation, the
input `run_claude` reacts to: the spawn itself failed
(`asyncio.create_subprocess_exec` raised), the wait timed out
(`asyncio.TimeoutError`), or the process exited with a return code having
written the given text (already UTF-8 decoded) to stdout and stderr. -/
inductive ProcResult
  | spawnFailure
  | timeout
  | exited (returncode : Int) (stdout stderr : String)
  deriving Repr, DecidableEq

/-- What a call to `run_claude` produces: the trimmed stdout on success, an
`HTTPException` with a status code and a structured detail payload
(`error` kind string, `message`, `request_id`), or an exception that
propagates unhandled out of the handler (the spawn-failure path, which the
code does not catch). -/
inductive RunResult
  | success (response : String)
  | httpError (status : Nat) (error : String) (message : String)
      (requestId : String)
  | unhandledSpawnFailure
  deriving Repr, DecidableEq

/-- Whether a `RunResult` is a structured `HTTPException` (carrying an error
kind string). -/
def RunResult.isHttpError : RunResult → Bool
  | .httpError _ _ _ _ => true
  | _ => false

/-- Result of `run_claude` paired with whether `proc.kill()` was called. -/
structure RunOutcome where
  result : RunResult
  killed : Bool
  deriving Repr, DecidableEq

/-- Python `str.strip()`: drop leading and trailing whitespace characters.
Defined over the character list so that it evaluates by kernel reduction. -/
def pyStrip (s : String) : String :=
  String.mk
    (((s.data.dropWhile Char.isWhitespace).reverse.dropWhile
        Char.isWhitespace).reverse)

/-- The message of the 504 detail: `f"Request timed out after {TIMEOUT} seconds"`. -/
def timeoutMessage (timeout : Nat) : String :=
  "Request timed out after " ++ toString timeout ++ " seconds"

/-- The message of the 500 detail:
`stderr.decode().strip() or "Claude CLI returned non-zero exit code"`
(Python `or`: the generic text substitutes exactly when the trimmed stderr
is the empty, hence falsy, string). -/
def cliErrorMessage (stderr : String) : String :=
  if pyStrip stderr = "" then "Claude CLI returned non-zero exit code"
  else pyStrip stderr

/-- The function `run_claude(prompt, request)` from `src/claude_api.py`.  The prompt is
passed to the child process and does not otherwise affect the control flow;
the child's behaviour is the `proc` argument.  `timeout` is the process-wide
`TIMEOUT` configuration and `requestId` the id set by the middleware. -/
def run_claude (timeout : Nat) (requestId : String) (prompt : String)
    (proc : ProcResult) : RunOutcome :=
  match proc with
  | .spawnFailure =>
      { result := .unhandledSpawnFailure, killed := false }
  | .timeout =>
      { result := .httpError 504 "timeout" (timeoutMessage timeout) requestId
        killed := true }
  | .exited rc _stdout stderr =>
      if rc ≠ 0 then
        { result := .httpError 500 "cli_error" (cliErrorMessage stderr)
            requestId
          killed := false }
      else
        { result := .success (pyStrip _stdout), killed := false }

/-- Python `str.capitalize()`: the first character upper-cased, every
remaining character lower-cased; the empty string is unchanged. -/
def pyCapitalize (s : String) : String :=
  match s.data with
  | [] => ""
  | c :: cs => String.mk (c.toUpper :: cs.map Char.toLower)

/-- One line of the assembled chat prompt:
`f"{msg.role.capitalize()}: {msg.content}"`. -/
def renderMessage (m : Message) : String :=
  pyCapitalize m.role ++ ": " ++ m.content

/-- Prompt assembly in `chat`: a `"System: <system>\n"` part is appended
first when `req.system` is truthy (non-empty), then one line per message,
and the parts are joined with `"\n"`. -/
def chatPrompt (req : ChatRequest) : String :=
  let prompt_parts :=
    (if req.system ≠ "" then ["System: " ++ req.system ++ "\n"] else [])
      ++ req.messages.map renderMessage
  String.intercalate "\n" prompt_parts

/-- An HTTP response: status code, JSON body, headers. -/
structure HttpResponse where
  status : Nat
  body : Json
  headers : List (String × String) := []

/-- The JSON detail payload carried by the structured `HTTPException`s of
`run_claude`. -/
def errorBody (error message requestId : String) : Json :=
  .obj [("error", .str error), ("message", .str message),
        ("request_id", .str requestId)]

/-- Modelled from the spec: how the framework renders an `HTTPException`
raised by a handler and an exception that escapes a handler.  The missing
code is FastAPI's exception handling, which is not under `src/`: a raised
`HTTPException(status_code, detail)` becomes a response with that status and
the detail as payload, while an uncaught exception becomes a generic
500 Internal Server Error response with no error kind. -/
def renderRunResult (okBody : String → Json) (r : RunResult) : HttpResponse :=
  match r with
  | .success response => { status := 200, body := okBody response }
  | .httpError status error message requestId =>
      { status := status, body := errorBody error message requestId }
  | .unhandledSpawnFailure =>
      { status := 500, body := .obj [("detail", .str "Internal Server Error")] }

/-- Success body of `POST /ask`: `{'success': True, 'response': response}`. -/
def askBody (response : String) : Json :=
  .obj [("success", .bool true), ("response", .str response)]

/-- Success body of `POST /chat`:
`{'success': True, 'message': {'role': 'assistant', 'content': response}}`. -/
def chatBody (response : String) : Json :=
  .obj [("success", .bool true),
        ("message", .obj [("role", .str "assistant"),
                          ("content", .str response)])]

/-- Handler `ask(req, request)`: runs `run_claude` on the prompt and wraps
the response. -/
def ask (timeout : Nat) (requestId : String) (req : AskRequest)
    (proc : ProcResult) : HttpResponse :=
  renderRunResult askBody (run_claude timeout requestId req.prompt proc).result

/-- Handler `chat(req, request)`: assembles the flat prompt, runs
`run_claude` on it and wraps the response as an assistant message. -/
def chat (timeout : Nat) (requestId : String) (req : ChatRequest)
    (proc : ProcResult) : HttpResponse :=
  renderRunResult chatBody
    (run_claude timeout requestId (chatPrompt req) proc).result

/-- Handler `health()`: `{'status': 'ok'}`, computed from nothing. -/
def health : HttpResponse :=
  { status := 200, body := .obj [("status", .str "ok")] }

/-- Handler `version()` with the process-wide configuration. -/
def version (ver : String) (timeout : Nat) (corsEnabled : Bool) :
    HttpResponse :=
  { status := 200
    body := .obj [("version", .str ver), ("timeout", .num timeout),
                  ("cors_enabled", .bool corsEnabled)] }

/-- Middleware `add_request_id`: after the inner handler produced its
response, set the `X-Request-ID` header to the id generated for this
request. -/
def add_request_id (requestId : String) (response : HttpResponse) :
    HttpResponse :=
  { response with
      headers := response.headers ++ [("X-Request-ID", requestId)] }

/-- Pydantic validation of a `Json` body against `AskRequest`: the body must
be an object whose `prompt` field is a string. -/
def parseAskRequest : Json → Option AskRequest
  | .obj fields =>
      match fields.lookup "prompt" with
      | some (.str p) => some { prompt := p }
      | _ => none
  | _ => none

/-- Pydantic validation against `Message`: `content` must be a string;
`role` defaults to `"user"` when absent and must be a string when present. -/
def parseMessage : Json → Option Message
  | .obj fields =>
      match fields.lookup "content" with
      | some (.str c) =>
          match fields.lookup "role" with
          | some (.str r) => some { role := r, content := c }
          | some _ => none
          | none => some { role := "user", content := c }
      | _ => none
  | _ => none

/-- Pydantic validation against `ChatRequest`: `messages` must be an array
of valid `Message` objects; `system` defaults to `""` when absent and must
be a string when present. -/
def parseChatRequest : Json → Option ChatRequest
  | .obj fields =>
      match fields.lookup "messages" with
      | some (.arr xs) =>
          match xs.mapM parseMessage with
          | some msgs =>
              match fields.lookup "system" with
              | some (.str s) => some { messages := msgs, system := s }
              | some _ => none
              | none => some { messages := msgs, system := "" }
          | none => none
      | _ => none
  | _ => none

/-- Modelled from the spec: FastAPI's rejection of a body that fails
pydantic validation, code not under `src/` — a 422 response whose payload
is a `detail` list of validation errors, produced before the route handler
(and hence any subprocess) runs. -/
def validationErrorResponse : HttpResponse :=
  { status := 422, body := .obj [("detail", .str "validation error")] }

/-- The `/ask` route: validate the body, then run the handler.  The boolean
records whether a subprocess spawn was attempted for this request. -/
def askRoute (timeout : Nat) (requestId : String) (body : Json)
    (proc : ProcResult) : HttpResponse × Bool :=
  match parseAskRequest body with
  | none => (validationErrorResponse, false)
  | some req => (ask timeout requestId req proc, true)

/-- The `/chat` route: validate the body, then run the handler.  The boolean
records whether a subprocess spawn was attempted for this request. -/
def chatRoute (timeout : Nat) (requestId : String) (body : Json)
    (proc : ProcResult) : HttpResponse × Bool :=
  match parseChatRequest body with
  | none => (validationErrorResponse, false)
  | some req => (chat timeout requestId req proc, true)

/-- The `/health` route: no body, no subprocess.  The boolean records
whether a subprocess spawn was attempted. -/
def healthRoute : HttpResponse × Bool := (health, false)

end ClaudeApi

namespace ClaudeApi

/-- The `error` kind string of a structured error payload, when there is
one.  Success payloads, validation-error payloads and the generic internal
server error payload have none. -/
def Json.errorKind : Json → Option String
  | .obj fields =>
      match fields.lookup "error" with
      | some (.str e) => some e
      | _ => none
  | _ => none

/-- The `request_id` field of a structured error payload, when there is
one. -/
def Json.requestIdField : Json → Option String
  | .obj fields =>
      match fields.lookup "request_id" with
      | some (.str r) => some r
      | _ => none
  | _ => none

/-- C1: for every prompt, when the subprocess exits with code zero the
`/ask` handler returns a 200 response whose body is
`{success: true, response: r}` with `r` exactly the subprocess's decoded
standard output, leading/trailing whitespace trimmed, and nothing else
changed. -/
theorem C1_ask_zero_exit (timeout : Nat) (requestId prompt out err : String) :
    ask timeout requestId { prompt := prompt } (.exited 0 out err)
      = { status := 200, body := askBody (pyStrip out) } := rfl

/-- C2: on a non-zero exit code the operation fails with the process-error
kind (`"cli_error"`) whose message is the trimmed standard error, or the
generic non-empty `"Claude CLI returned non-zero exit code"` when the
trimmed standard error is empty. -/
theorem C2_nonzero_exit (timeout : Nat) (requestId prompt out err : String)
    (rc : Int) (h : rc ≠ 0) :
    (run_claude timeout requestId prompt (.exited rc out err)).result
      = .httpError 500 "cli_error"
          (if pyStrip err = "" then "Claude CLI returned non-zero exit code"
           else pyStrip err)
          requestId := by
  simp [run_claude, h, cliErrorMessage]

/-- Witness for C2 at the spec's concrete instance: exit code 1 with stderr
`"boom"` yields the `"cli_error"` kind with message `"boom"`. -/
theorem C2_nonzero_exit_witness :
    (1 : Int) ≠ 0
    ∧ (run_claude 120 "req00001" "hi" (.exited 1 "" "boom")).result
        = .httpError 500 "cli_error" "boom" "req00001" := by
  refine ⟨by decide, ?_⟩
  rw [C2_nonzero_exit 120 "req00001" "hi" "" "boom" 1 (by decide)]
  decide

/-- C3: on timeout the subprocess is killed and the operation fails with
the timeout kind, a 504 status, a message carrying the configured timeout
value, and the request id. -/
theorem C3_timeout_kills_and_504 (timeout : Nat) (requestId prompt : String) :
    run_claude timeout requestId prompt .timeout
      = { result := .httpError 504 "timeout"
            ("Request timed out after " ++ toString timeout ++ " seconds")
            requestId
          killed := true } := rfl

/-- C4 counterexample: the assembled prompt for
`messages = [{role: "user", content: "Hi"}]`, `system = "Be nice"` is not
the claimed `"System: Be nice\nUser: Hi"` — the system part itself ends in
a newline before the join, so a blank line separates it from the first
message. -/
theorem C4_counterexample :
    chatPrompt { messages := [{ role := "user", content := "Hi" }],
                 system := "Be nice" }
      ≠ "System: Be nice\nUser: Hi" := by decide

/-- C4 (amended): the assembled prompt equals
`"System: Be nice\n\nUser: Hi"`: the system line keeps its own trailing
newline and the join adds another, producing a blank separator line; there
is no trailing newline at the end. -/
theorem C4_amended_blank_separator :
    chatPrompt { messages := [{ role := "user", content := "Hi" }],
                 system := "Be nice" }
      = "System: Be nice\n\nUser: Hi" := by decide

/-- C5 counterexample: a role is not rendered with only its first character
upper-cased and the rest unchanged — `"USER"` renders as `"User: x"`, not
`"USER: x"`. -/
theorem C5_counterexample :
    renderMessage { role := "USER", content := "x" } ≠ "USER: x" := by decide

/-- C5 (amended): each message renders as `"<Role>: <content>"` where Role
is the role with its first character upper-cased and every remaining
character lower-cased (Python `str.capitalize`); for the empty role the
line is `": <content>"`. -/
theorem C5_amended_capitalize (c : Char) (cs : List Char) (content : String) :
    renderMessage { role := String.mk (c :: cs), content := content }
        = String.mk (c.toUpper :: cs.map Char.toLower) ++ ": " ++ content
    ∧ renderMessage { role := "", content := content } = ": " ++ content := by
  exact ⟨rfl, rfl⟩

/-- C6 counterexample: when the spawn itself fails, the operation does not
fail with any structured error kind at all — the exception is uncaught, so
no `HTTPException` (and in particular no SPAWN_ERROR kind) is produced. -/
theorem C6_counterexample :
    (run_claude 120 "req00001" "hi" .spawnFailure).result
        = .unhandledSpawnFailure
    ∧ (run_claude 120 "req00001" "hi" .spawnFailure).result.isHttpError
        = false := ⟨rfl, rfl⟩

/-- C6 (amended): a spawn failure propagates unhandled and surfaces as a
generic 500 response with no `error` kind field, which is still
distinguishable from the process-error responses, whose payload carries the
`"cli_error"` kind. -/
theorem C6_amended_spawn_unhandled (timeout : Nat) (requestId : String)
    (req : AskRequest) :
    (ask timeout requestId req .spawnFailure).status = 500
    ∧ (ask timeout requestId req .spawnFailure).body.errorKind = none
    ∧ ∀ stderr : String,
        (ask timeout requestId req (.exited 1 "" stderr)).body.errorKind
          = some "cli_error" :=
  ⟨rfl, rfl, fun _ => rfl⟩

/-- C7: a body that fails validation is answered with the 422
validation-error response — which carries no `error` kind, so it is
distinct from the timeout / process-error / spawn-error kinds — and no
subprocess spawn is attempted for it, on both `/ask` and `/chat`. -/
theorem C7_validation_rejects_before_spawn (timeout : Nat)
    (requestId : String) (body : Json) (proc : ProcResult) :
    (parseAskRequest body = none →
        askRoute timeout requestId body proc = (validationErrorResponse, false))
    ∧ (parseChatRequest body = none →
        chatRoute timeout requestId body proc = (validationErrorResponse, false))
    ∧ validationErrorResponse.status = 422
    ∧ validationErrorResponse.body.errorKind = none := by
  refine ⟨fun h => ?_, fun h => ?_, rfl, rfl⟩
  · simp [askRoute, h]
  · simp [chatRoute, h]

/-- Witness for C7: the empty JSON object is malformed for both routes
(missing `prompt`, missing `messages`) and is rejected without a spawn. -/
theorem C7_validation_witness :
    parseAskRequest (.obj []) = none
    ∧ askRoute 120 "req00001" (.obj []) .spawnFailure
        = (validationErrorResponse, false)
    ∧ parseChatRequest (.obj []) = none
    ∧ chatRoute 120 "req00001" (.obj []) .spawnFailure
        = (validationErrorResponse, false) :=
  ⟨rfl,
   (C7_validation_rejects_before_spawn 120 "req00001" (.obj []) .spawnFailure).1 rfl,
   rfl,
   (C7_validation_rejects_before_spawn 120 "req00001" (.obj []) .spawnFailure).2.1 rfl⟩

/-- C8: the `/health` route always returns a 200 `{status: "ok"}` response;
it takes no subprocess outcome as input and never attempts a spawn. -/
theorem C8_health_ok (requestId : String) :
    healthRoute = ({ status := 200, body := .obj [("status", .str "ok")] }, false)
    ∧ add_request_id requestId healthRoute.1
        = { status := 200, body := .obj [("status", .str "ok")],
            headers := [("X-Request-ID", requestId)] } := ⟨rfl, rfl⟩

/-- C9: the middleware puts the request's correlation id in the
`X-Request-ID` header of every response, and the timeout and non-zero-exit
error payloads carry that same id in their `request_id` field. -/
theorem C9_correlation_id (requestId : String) (response : HttpResponse)
    (timeout : Nat) (req : AskRequest) (rc : Int) (out err : String)
    (h : rc ≠ 0) :
    ("X-Request-ID", requestId) ∈ (add_request_id requestId response).headers
    ∧ (ask timeout requestId req .timeout).body.requestIdField = some requestId
    ∧ (ask timeout requestId req (.exited rc out err)).body.requestIdField
        = some requestId := by
  refine ⟨?_, rfl, ?_⟩
  · simp [add_request_id]
  · simp [ask, run_claude, h, renderRunResult, errorBody, Json.requestIdField,
      List.lookup]

/-- Witness for C9 at concrete inputs: request id `"req00001"`, a non-zero
exit code 1. -/
theorem C9_correlation_id_witness :
    (1 : Int) ≠ 0
    ∧ ("X-Request-ID", "req00001")
        ∈ (add_request_id "req00001" health).headers
    ∧ (ask 120 "req00001" { prompt := "hi" } .timeout).body.requestIdField
        = some "req00001"
    ∧ (ask 120 "req00001" { prompt := "hi" }
        (.exited 1 "" "boom")).body.requestIdField = some "req00001" := by
  have h := C9_correlation_id "req00001" health 120 { prompt := "hi" } 1 ""
    "boom" (by decide)
  exact ⟨by decide, h.1, h.2.1, h.2.2⟩

/-- C10: a chat message object without a `role` field passes validation
with role defaulting to `"user"`, so it parses to the same message — and
hence renders to the same prompt line — as one with an explicit
`{role: "user"}`. -/
theorem C10_role_defaults_to_user (c : String) :
    parseMessage (.obj [("content", .str c)])
        = some { role := "user", content := c }
    ∧ parseMessage (.obj [("content", .str c)])
        = parseMessage (.obj [("role", .str "user"), ("content", .str c)])
    ∧ renderMessage { role := "user", content := c } = "User: " ++ c :=
  ⟨rfl, rfl, rfl⟩

end ClaudeApi
